import Mathlib

/-! Shallow embedding of the load-time measurement engine of the
loading_time_tool repository (tool/crawler.py and tool/utils.py).

Elapsed wall-clock durations are modelled as rationals. Python values that can
be None are Option values, and the Python truthiness fallback written
`x or 100` in the source is modelled by orSentinel, which treats the falsy
float 0.0 exactly as Python does. Outcomes of the bounded selenium waits, of
the terminal-pixel lookup, and of the page structure inspected by the position
classifier are environment inputs standing for what the external browser
session reports; every decision taken on those outcomes is translated from the
source. -/

/-- Python exception value. The field isException is true when the class
derives from Exception; SystemExit and KeyboardInterrupt derive only from
BaseException and have it false. -/
structure PyExc where
  isException : Bool
  name : String
deriving DecidableEq

/-- The catching decorator of tool/utils.py: run the wrapped body and return
its value; on an exception deriving from Exception, log and fall through,
returning None. An exception outside the Exception hierarchy is not matched by
the except Exception clause and keeps propagating. -/
def catching {α : Type} (body : Except PyExc α) : Except PyExc (Option α) :=
  match body with
  | Except.ok a => Except.ok (Option.some a)
  | Except.error e => if e.isException then Except.ok Option.none else Except.error e

/-- Python `x or 100` applied to an optional duration: None and the falsy
float 0.0 are replaced by the sentinel 100, every other value is kept
(crawler.py lines 239-248). -/
def orSentinel : Option ℚ → ℚ
  | Option.none => 100
  | Option.some v => if v = 0 then 100 else v

/-- Identifier component of the unit metric: Python None, a Python string (an
extracted uid, or the literal set on the caps code), or the dict returned by
parse_qs that is left in unit_id when a KeyError interrupts the parse
(crawler.py lines 251-270). -/
inductive PyUnitId
  | pyNone
  | str (s : String)
  | parsed (q : List (String × List String))
deriving DecidableEq

/-- Python truthiness of a PyUnitId: None is falsy, a string is truthy iff it
is nonempty, a dict is truthy iff it is nonempty. This is the predicate of the
filter in calculate_results (line 164). -/
def truthyId : PyUnitId → Bool
  | PyUnitId.pyNone => false
  | PyUnitId.str s => !(s.isEmpty)
  | PyUnitId.parsed q => !(q.isEmpty)

/-- Outcome of the first bounded wait, for the script element of the injected
tag (crawler.py lines 224-227). Success carries end_loading_tag, the elapsed
time since start_loading_tag; TimeoutException and NoSuchElementException are
the two caught failures (lines 237 and 243). -/
inductive Wait1Outcome
  | ok (tagElapsed : ℚ)
  | timeout
  | notFound
deriving DecidableEq

/-- Outcome of the second bounded wait, for the conversion-pixel image whose
src contains 990 (lines 229-235). Success carries end_loading_page,
end_loading_990 and end_loading_layer as measured when it completes. This wait
only runs when the first one succeeded. -/
inductive Wait2Outcome
  | ok (pageElapsed e990Elapsed layerElapsed : ℚ)
  | timeout
  | notFound
deriving DecidableEq

/-- Outcome of the terminal-pixel step in the finally block (lines 249-270):
the wait can time out before end_loading_unit is measured; the element can be
gone again when find_element_by_css_selector runs after a successful wait
(NoSuchElementException, with end_loading_unit already measured); or the
element is found and its src attribute fed through parse_qs yields the query
mapping q. -/
inductive TermOutcome
  | timeout
  | notFoundAfterWait (unitElapsed : ℚ)
  | found (unitElapsed : ℚ) (q : List (String × List String))
deriving DecidableEq

def aiKey : String := "ai"

def uidKey : String := "uid"

def capsCodeStr : String := "983"

/-- The literal assigned to unit_id when the terminal pixel carries the caps
code (line 261). -/
def capsIdStr : String := "Failed on caps"

/-- The body of the finally block (lines 249-270). It starts from
unit_id = None and end_loading_unit = 0; when the wait succeeds it measures
end_loading_unit and parses the pixel src. A KeyError on the ai or uid key is
caught and leaves unit_id holding the parsed dict; an IndexError (empty ai
list) or a ValueError (uid list without exactly one element) is matched by
none of the three handlers and escalates to the repetition-level handler,
modelled as error. -/
def terminalStep : TermOutcome → Except Unit (PyUnitId × ℚ)
  | TermOutcome.timeout => Except.ok (PyUnitId.pyNone, 0)
  | TermOutcome.notFoundAfterWait e => Except.ok (PyUnitId.pyNone, e)
  | TermOutcome.found e q =>
    match q.lookup aiKey with
    | Option.none => Except.ok (PyUnitId.parsed q, e)
    | Option.some [] => Except.error ()
    | Option.some (a :: _) =>
      if a = capsCodeStr then Except.ok (PyUnitId.str capsIdStr, e)
      else
        match q.lookup uidKey with
        | Option.none => Except.ok (PyUnitId.parsed q, e)
        | Option.some [s] => Except.ok (PyUnitId.str s, e)
        | Option.some _ => Except.error ()

/-- Environment of one repetition of the tag-bearing loop: whether an
exception was raised before the measurement block (cookie clearing,
navigation, script injection, lines 206-212), and the outcomes of the three
waiting stages. -/
structure TagRepEnv where
  preFail : Bool
  wait1 : Wait1Outcome
  wait2 : Wait2Outcome
  term : TermOutcome
deriving DecidableEq

/-- The values appended for one repetition: the four duration metrics and the
unit pair. -/
structure TagRepResult where
  preload : ℚ
  e990 : ℚ
  withTag : ℚ
  layer : ℚ
  unit : PyUnitId × ℚ
deriving DecidableEq

/-- The entries appended by the repetition-level except handler (lines
277-283): 100 for every duration and the pair (None, 0) for unit. -/
def sentinelRep : TagRepResult :=
  { preload := 100, e990 := 100, withTag := 100, layer := 100,
    unit := (PyUnitId.pyNone, 0) }

/-- The four duration variables as they stand after the inner try of lines
221-248, in the order end_loading_tag, end_loading_990, end_loading_page,
end_loading_layer. On a failure of either wait both handlers apply the
truthiness fallback `x or 100` to each of the four variables; a variable never
assigned is still None at that point. -/
def measuredMetrics (w1 : Wait1Outcome) (w2 : Wait2Outcome) : ℚ × ℚ × ℚ × ℚ :=
  match w1 with
  | Wait1Outcome.ok t =>
    match w2 with
    | Wait2Outcome.ok p n l => (t, n, p, l)
    | Wait2Outcome.timeout =>
      (orSentinel (Option.some t), orSentinel Option.none, orSentinel Option.none,
        orSentinel Option.none)
    | Wait2Outcome.notFound =>
      (orSentinel (Option.some t), orSentinel Option.none, orSentinel Option.none,
        orSentinel Option.none)
  | Wait1Outcome.timeout =>
    (orSentinel Option.none, orSentinel Option.none, orSentinel Option.none,
      orSentinel Option.none)
  | Wait1Outcome.notFound =>
    (orSentinel Option.none, orSentinel Option.none, orSentinel Option.none,
      orSentinel Option.none)

/-- One repetition of the tag-bearing loop (lines 203-283). A pre-measurement
exception, or an exception escaping the finally block, reaches the
repetition-level handler and yields the sentinel entries; otherwise the
measured metrics and the unit pair of the terminal step are recorded. -/
def runTagRep (env : TagRepEnv) : TagRepResult :=
  if env.preFail then sentinelRep
  else
    match terminalStep env.term with
    | Except.error _ => sentinelRep
    | Except.ok u =>
      { preload := (measuredMetrics env.wait1 env.wait2).1,
        e990 := (measuredMetrics env.wait1 env.wait2).2.1,
        withTag := (measuredMetrics env.wait1 env.wait2).2.2.1,
        layer := (measuredMetrics env.wait1 env.wait2).2.2.2,
        unit := u }

/-- The five vectors of the time_measures dictionary built by the tag-bearing
loop (line 193). -/
structure TagMeasures where
  preload : List ℚ
  e990 : List ℚ
  withTag : List ℚ
  layer : List ℚ
  unit : List (PyUnitId × ℚ)
deriving DecidableEq

/-- Appending the entries of one repetition to every vector, as done both by
lines 272-276 and, through sentinelRep, by lines 279-283. -/
def appendRep (m : TagMeasures) (r : TagRepResult) : TagMeasures :=
  { preload := m.preload ++ [r.preload], e990 := m.e990 ++ [r.e990],
    withTag := m.withTag ++ [r.withTag], layer := m.layer ++ [r.layer],
    unit := m.unit ++ [r.unit] }

/-- The tag-bearing trial loop: one repetition per environment, each appending
exactly one entry to every vector. -/
def runTagTrial (envs : List TagRepEnv) : TagMeasures :=
  envs.foldl (fun m e => appendRep m (runTagRep e)) ⟨[], [], [], [], []⟩

/-- Environment of one repetition of the no-tag loop: whether driver.get
raised TimeoutException (caught at line 305 and only logged), and the elapsed
end_loading_page recorded in either case. -/
structure NoTagRepEnv where
  navTimeout : Bool
  pageElapsed : ℚ
deriving DecidableEq

/-- Entry appended by one no-tag repetition (lines 300-310): the elapsed time
is recorded whether or not navigation timed out; no sentinel convention exists
on this path. -/
def noTagEntry (env : NoTagRepEnv) : ℚ := env.pageElapsed

/-- The no-tag trial loop over its repetition environments. -/
def runNoTagTrial (envs : List NoTagRepEnv) : List ℚ :=
  envs.foldl (fun acc e => acc ++ [noTagEntry e]) []

/-- What body.find for a src matching preload.js returns (line 318): an
element that is a direct child of body, with its index among the body children
and the total number of body children as used by source_body.index and len, or
an element nested deeper, for which source_body.index raises ValueError. -/
inductive BodyHit
  | direct (idx total : ℕ)
  | nested
deriving DecidableEq

/-- Structure of the final page as inspected by the classifier at lines
315-327: presence of head and body, whether head.find_all for a preload src
matches anything, and what body.find returns. -/
structure PageDoc where
  hasHead : Bool
  headHasPreload : Bool
  hasBody : Bool
  bodyFind : Option BodyHit
deriving DecidableEq

/-- Python value stored under position: True, or a pair of False and a
message. -/
inductive PosValue
  | ok
  | wrong (msg : String)
deriving DecidableEq

def headMsg : String := "Tag is located in <head>"

def bodyMsg : String := "Tag is located in one of <body></body> children."

/-- The position classification of lines 315-327. An AttributeError from a
missing head or body, or a ZeroDivisionError from an empty body, is not
matched by the except ValueError clause and aborts the whole no-tag test,
modelled as error; the ValueError raised by index on a nested hit is caught
and classified at line 327. -/
def classifyPosition (d : PageDoc) : Except Unit PosValue :=
  if !d.hasHead then Except.error ()
  else if d.headHasPreload then Except.ok (PosValue.wrong headMsg)
  else if !d.hasBody then Except.error ()
  else
    match d.bodyFind with
    | Option.none => Except.ok PosValue.ok
    | Option.some (BodyHit.direct i total) =>
      if total = 0 then Except.error ()
      else if (i : ℚ) / (total : ℚ) < 7 / 10 then Except.ok (PosValue.wrong headMsg)
      else Except.ok PosValue.ok
    | Option.some BodyHit.nested => Except.ok (PosValue.wrong bodyMsg)

/-- Arithmetic mean sum(l)/len(l) as written by calculate_results. -/
def mean (l : List ℚ) : ℚ := l.sum / (l.length : ℚ)

/-- Python max of a list of numbers. The source only applies it to nonempty
vectors; the empty case, where Python raises, is given the junk value 0. -/
def listMax : List ℚ → ℚ
  | [] => 0
  | h :: t => t.foldl max h

/-- Python max with key on the second component (line 171): the first pair
whose elapsed component is maximal. -/
def maxUnitPair : List (PyUnitId × ℚ) → PyUnitId × ℚ
  | [] => (PyUnitId.pyNone, 0)
  | h :: t => t.foldl (fun best x => if best.2 < x.2 then x else best) h

/-- The per-site vectors consumed by calculate_results. -/
structure SiteMeasures where
  withTag : List ℚ
  withoutTag : List ℚ
  preload : List ℚ
  layer : List ℚ
  e990 : List ℚ
  unit : List (PyUnitId × ℚ)
deriving DecidableEq

/-- The aggregate fields written by calculate_results into the per-site
dictionary. -/
structure SiteAggregates where
  averageWithTag : ℚ
  averageWithoutTag : ℚ
  maxWithTag : ℚ
  maxWithoutTag : ℚ
  averagePreload : ℚ
  averageLayer : ℚ
  average990 : ℚ
  averageUnit : Option (List (PyUnitId × ℚ)) × ℚ
  maxPreload : ℚ
  maxLayer : ℚ
  max990 : ℚ
  maxUnit : PyUnitId × ℚ
deriving DecidableEq

/-- Number of iterations of Python xrange(n) for an integer n: empty when n is
not positive. -/
def xrangeLen (n : ℤ) : ℕ := n.toNat

namespace Crawler

/-- Crawler.calculate_results (lines 148-171) for one site. The first
component of average_unit is the Python 2 value
filter(lambda x: x[0], unit) or None: the list of unit pairs with a truthy
identifier, or None when that list is empty. -/
def calculate_results (m : SiteMeasures) : SiteAggregates :=
  let filtered := m.unit.filter fun x => truthyId x.1
  { averageWithTag := mean m.withTag,
    averageWithoutTag := mean m.withoutTag,
    maxWithTag := listMax m.withTag,
    maxWithoutTag := listMax m.withoutTag,
    averagePreload := mean m.preload,
    averageLayer := mean m.layer,
    average990 := mean m.e990,
    averageUnit := (if filtered.isEmpty then Option.none else Option.some filtered,
      mean (m.unit.map Prod.snd)),
    maxPreload := listMax m.preload,
    maxLayer := listMax m.layer,
    max990 := listMax m.e990,
    maxUnit := maxUnitPair m.unit }

/-- Crawler.test_load_time_with_tag as seen by its caller: the catching
decorator around a body that either raises before or after the loop (error)
or completes the loop over its repetition environments. -/
def test_load_time_with_tag (body : Except PyExc (List TagRepEnv)) :
    Except PyExc (Option TagMeasures) :=
  catching (body.map runTagTrial)

/-- The scans_number stored by Crawler.get_configurations (line 368): the
value read from the database row minus 5. -/
def configScansNumber (stored : ℤ) : ℤ := stored - 5

/-- Number of repetitions a trial loop actually executes for a site whose
database row stores the given scans_number: lines 201 and 298 iterate xrange
of the configured scans_number. -/
def executedReps (stored : ℤ) : ℕ := xrangeLen (configScansNumber stored)

end Crawler

/-- Spec-side reading of the first component of the unit mean, following the
words of the spec: the set of distinct truthy identifiers observed across the
trials, as a deduplicated list of identifiers. Written only to be compared
with the component computed by calculate_results. -/
def specDistinctTruthyIds (unit : List (PyUnitId × ℚ)) : List PyUnitId :=
  ((unit.filter fun x => truthyId x.1).map Prod.fst).dedup

/-- Concrete site measures with a repeated truthy identifier, used to compare
the unit mean produced by calculate_results with the spec wording. -/
def exUnitSite : SiteMeasures :=
  { withTag := [1], withoutTag := [1], preload := [1], layer := [1], e990 := [1],
    unit := [(PyUnitId.str ("a"), 1), (PyUnitId.str ("a"), 2)] }

/-! Helper lemmas. -/

lemma foldl_snoc_length {α β : Type} (g : α → β) (envs : List α) :
    ∀ acc : List β,
      (envs.foldl (fun l e => l ++ [g e]) acc).length = acc.length + envs.length := by
  induction envs with
  | nil => intro acc; simp
  | cons e t ih =>
    intro acc
    simp only [List.foldl_cons]
    rw [ih]
    simp only [List.length_append, List.length_cons, List.length_nil]
    omega

lemma runTagTrial_go_lengths (envs : List TagRepEnv) :
    ∀ m : TagMeasures,
      ((envs.foldl (fun acc e => appendRep acc (runTagRep e)) m).preload.length
          = m.preload.length + envs.length)
      ∧ ((envs.foldl (fun acc e => appendRep acc (runTagRep e)) m).e990.length
          = m.e990.length + envs.length)
      ∧ ((envs.foldl (fun acc e => appendRep acc (runTagRep e)) m).withTag.length
          = m.withTag.length + envs.length)
      ∧ ((envs.foldl (fun acc e => appendRep acc (runTagRep e)) m).layer.length
          = m.layer.length + envs.length)
      ∧ ((envs.foldl (fun acc e => appendRep acc (runTagRep e)) m).unit.length
          = m.unit.length + envs.length) := by
  induction envs with
  | nil => intro m; simp
  | cons e t ih =>
    intro m
    obtain ⟨h1, h2, h3, h4, h5⟩ := ih (appendRep m (runTagRep e))
    simp only [List.foldl_cons, List.length_cons]
    refine ⟨?_, ?_, ?_, ?_, ?_⟩
    · rw [h1]
      simp only [appendRep, List.length_append, List.length_cons, List.length_nil]
      omega
    · rw [h2]
      simp only [appendRep, List.length_append, List.length_cons, List.length_nil]
      omega
    · rw [h3]
      simp only [appendRep, List.length_append, List.length_cons, List.length_nil]
      omega
    · rw [h4]
      simp only [appendRep, List.length_append, List.length_cons, List.length_nil]
      omega
    · rw [h5]
      simp only [appendRep, List.length_append, List.length_cons, List.length_nil]
      omega

lemma foldl_max_ge (t : List ℚ) : ∀ h : ℚ, ∀ x ∈ h :: t, x ≤ t.foldl max h := by
  induction t with
  | nil =>
    intro h x hx
    simp only [List.mem_singleton] at hx
    simp [hx]
  | cons a t ih =>
    intro h x hx
    simp only [List.foldl_cons]
    rcases List.mem_cons.mp hx with rfl | hx2
    · exact le_trans (le_max_left x a) (ih (max x a) (max x a) (List.mem_cons_self _ _))
    rcases List.mem_cons.mp hx2 with rfl | hx3
    · exact le_trans (le_max_right h x) (ih (max h x) (max h x) (List.mem_cons_self _ _))
    · exact ih (max h a) x (List.mem_cons_of_mem _ hx3)

lemma le_listMax (l : List ℚ) : ∀ x ∈ l, x ≤ listMax l := by
  cases l with
  | nil => intro x hx; cases hx
  | cons h t => intro x hx; simpa [listMax] using foldl_max_ge t h x hx

lemma mean_le_of_forall_le (l : List ℚ) (B : ℚ) (hne : l ≠ [])
    (hb : ∀ x ∈ l, x ≤ B) : mean l ≤ B := by
  have hs : l.sum ≤ l.length • B := List.sum_le_card_nsmul l B hb
  have hl : (0 : ℚ) < (l.length : ℚ) := by
    exact_mod_cast List.length_pos.mpr hne
  rw [mean, div_le_iff₀ hl]
  rw [nsmul_eq_mul] at hs
  linarith

lemma mean_le_listMax (l : List ℚ) (hne : l ≠ []) : mean l ≤ listMax l :=
  mean_le_of_forall_le l (listMax l) hne (le_listMax l)

lemma foldl_maxUnit_mem (t : List (PyUnitId × ℚ)) :
    ∀ h : PyUnitId × ℚ,
      t.foldl (fun best x => if best.2 < x.2 then x else best) h ∈ h :: t := by
  induction t with
  | nil => intro h; simp
  | cons a t ih =>
    intro h
    simp only [List.foldl_cons]
    rcases List.mem_cons.mp (ih (if h.2 < a.2 then a else h)) with heq | hmem
    · rw [heq]
      by_cases hc : h.2 < a.2 <;> simp [hc]
    · exact List.mem_cons_of_mem _ (List.mem_cons_of_mem _ hmem)

lemma foldl_maxUnit_ge (t : List (PyUnitId × ℚ)) :
    ∀ h : PyUnitId × ℚ, ∀ x ∈ h :: t,
      x.2 ≤ (t.foldl (fun best y => if best.2 < y.2 then y else best) h).2 := by
  induction t with
  | nil =>
    intro h x hx
    simp only [List.mem_singleton] at hx
    simp [hx]
  | cons a t ih =>
    intro h x hx
    simp only [List.foldl_cons]
    have hh : h.2 ≤ (if h.2 < a.2 then a else h).2 := by
      by_cases hc : h.2 < a.2
      · rw [if_pos hc]; exact le_of_lt hc
      · rw [if_neg hc]
    have ha : a.2 ≤ (if h.2 < a.2 then a else h).2 := by
      by_cases hc : h.2 < a.2
      · rw [if_pos hc]
      · rw [if_neg hc]; exact le_of_not_lt hc
    have hhead := ih (if h.2 < a.2 then a else h) (if h.2 < a.2 then a else h)
      (List.mem_cons_self _ _)
    rcases List.mem_cons.mp hx with rfl | hx2
    · exact le_trans hh hhead
    rcases List.mem_cons.mp hx2 with rfl | hx3
    · exact le_trans ha hhead
    · exact ih _ x (List.mem_cons_of_mem _ hx3)

lemma maxUnitPair_mem (l : List (PyUnitId × ℚ)) (h : l ≠ []) : maxUnitPair l ∈ l := by
  cases l with
  | nil => exact absurd rfl h
  | cons a t => simpa [maxUnitPair] using foldl_maxUnit_mem t a

lemma maxUnitPair_ge (l : List (PyUnitId × ℚ)) : ∀ x ∈ l, x.2 ≤ (maxUnitPair l).2 := by
  cases l with
  | nil => intro x hx; cases hx
  | cons a t => intro x hx; simpa [maxUnitPair] using foldl_maxUnit_ge t a x hx

/-! Claim theorems. -/

/-- Claim C1, counterexample: in a repetition where the wait for the tag
script succeeds at 3 seconds and the wait for the 990 pixel then times out,
the recorded preload is the measured 3, not the sentinel 100 — the claim that
all four metrics, the already-measured preload included, are overwritten to
100 is false. -/
theorem C1_counterexample :
    (runTagRep ⟨false, Wait1Outcome.ok 3, Wait2Outcome.timeout,
        TermOutcome.timeout⟩).preload = 3
    ∧ (runTagRep ⟨false, Wait1Outcome.ok 3, Wait2Outcome.timeout,
        TermOutcome.timeout⟩).preload ≠ 100 := by
  constructor
  · rfl
  · decide

/-- Claim C1 as amended: when the wait for the tag script succeeds with
elapsed t and the subsequent wait for the 990 pixel fails with timeout or
not-found (and the terminal step does not raise an uncaught exception),
with_tag, 990 and layer are recorded as the sentinel 100, while preload keeps
its measured value t unless t is the falsy 0, in which case it too becomes
100. -/
theorem C1_amended (env : TagRepEnv) (t : ℚ) (u : PyUnitId × ℚ)
    (hp : env.preFail = false) (h1 : env.wait1 = Wait1Outcome.ok t)
    (h2 : env.wait2 = Wait2Outcome.timeout ∨ env.wait2 = Wait2Outcome.notFound)
    (ht : terminalStep env.term = Except.ok u) :
    (runTagRep env).withTag = 100 ∧ (runTagRep env).e990 = 100
    ∧ (runTagRep env).layer = 100
    ∧ (runTagRep env).preload = (if t = 0 then 100 else t) := by
  rcases h2 with h2 | h2 <;>
    simp [runTagRep, hp, ht, measuredMetrics, h1, h2, orSentinel]

/-- Witness for C1_amended at a concrete repetition with t = 3. -/
theorem C1_amended_witness :
    (runTagRep ⟨false, Wait1Outcome.ok 3, Wait2Outcome.timeout,
        TermOutcome.timeout⟩).withTag = 100
    ∧ (runTagRep ⟨false, Wait1Outcome.ok 3, Wait2Outcome.timeout,
        TermOutcome.timeout⟩).e990 = 100
    ∧ (runTagRep ⟨false, Wait1Outcome.ok 3, Wait2Outcome.timeout,
        TermOutcome.timeout⟩).layer = 100
    ∧ (runTagRep ⟨false, Wait1Outcome.ok 3, Wait2Outcome.timeout,
        TermOutcome.timeout⟩).preload = (if (3 : ℚ) = 0 then 100 else 3) :=
  C1_amended ⟨false, Wait1Outcome.ok 3, Wait2Outcome.timeout, TermOutcome.timeout⟩
    3 (PyUnitId.pyNone, 0) rfl rfl (Or.inl rfl) rfl

/-- Claim C9, confirmed: when a milestone measured exactly 0 (here the tag
script wait succeeding with elapsed 0) is followed by a failing wait in the
same try block, the truthiness fallback `x or 100` replaces the falsy 0 by the
sentinel 100 even though that wait succeeded. -/
theorem C9_confirmed (env : TagRepEnv) (u : PyUnitId × ℚ)
    (hp : env.preFail = false) (h1 : env.wait1 = Wait1Outcome.ok 0)
    (h2 : env.wait2 = Wait2Outcome.timeout ∨ env.wait2 = Wait2Outcome.notFound)
    (ht : terminalStep env.term = Except.ok u) :
    (runTagRep env).preload = 100 := by
  rcases h2 with h2 | h2 <;>
    simp [runTagRep, hp, ht, measuredMetrics, h1, h2, orSentinel]

/-- Witness for C9_confirmed at a concrete repetition. -/
theorem C9_confirmed_witness :
    (runTagRep ⟨false, Wait1Outcome.ok 0, Wait2Outcome.timeout,
        TermOutcome.timeout⟩).preload = 100 :=
  C9_confirmed ⟨false, Wait1Outcome.ok 0, Wait2Outcome.timeout, TermOutcome.timeout⟩
    (PyUnitId.pyNone, 0) rfl rfl (Or.inl rfl) rfl

/-- Claim C2, counterexample: in a repetition where the terminal pixel is
found after 5 seconds but its parsed src lacks the ai key (a KeyError parse
failure), the recorded unit pair is the parsed dict together with the measured
elapsed time, not (None, 0). -/
theorem C2_counterexample :
    (runTagRep ⟨false, Wait1Outcome.ok 1, Wait2Outcome.ok 2 3 4,
        TermOutcome.found 5 [("x", ["1"])]⟩).unit
      = (PyUnitId.parsed [("x", ["1"])], 5)
    ∧ (runTagRep ⟨false, Wait1Outcome.ok 1, Wait2Outcome.ok 2 3 4,
        TermOutcome.found 5 [("x", ["1"])]⟩).unit ≠ (PyUnitId.pyNone, 0) := by
  constructor
  · rfl
  · decide

/-- Claim C2 as amended: when the terminal wait times out, the recorded unit
pair is (None, 0); when the element is gone again after a successful wait
(NoSuchElementException), the pair is (None, elapsed) with the already
measured elapsed time; when the pixel is found but parsing its src raises a
KeyError (missing ai key, or missing uid key on a non-caps code), the pair is
(parsed dict, elapsed) — identifier None and elapsed 0 survive only on the
timeout path. -/
theorem C2_amended (env : TagRepEnv) (hp : env.preFail = false) :
    (env.term = TermOutcome.timeout →
      (runTagRep env).unit = (PyUnitId.pyNone, 0))
    ∧ (∀ e : ℚ, env.term = TermOutcome.notFoundAfterWait e →
      (runTagRep env).unit = (PyUnitId.pyNone, e))
    ∧ (∀ e q, env.term = TermOutcome.found e q → q.lookup aiKey = Option.none →
      (runTagRep env).unit = (PyUnitId.parsed q, e))
    ∧ (∀ e q a r, env.term = TermOutcome.found e q →
      q.lookup aiKey = Option.some (a :: r) → a ≠ capsCodeStr →
      q.lookup uidKey = Option.none →
      (runTagRep env).unit = (PyUnitId.parsed q, e)) := by
  refine ⟨?_, ?_, ?_, ?_⟩
  · intro h
    simp [runTagRep, hp, h, terminalStep]
  · intro e h
    simp [runTagRep, hp, h, terminalStep]
  · intro e q h hq
    simp [runTagRep, hp, h, terminalStep, hq]
  · intro e q a r h hq ha hu
    simp [runTagRep, hp, h, terminalStep, hq, ha, hu]

/-- Witness for C2_amended on the timeout path of a concrete repetition. -/
theorem C2_amended_witness :
    (runTagRep ⟨false, Wait1Outcome.timeout, Wait2Outcome.timeout,
        TermOutcome.timeout⟩).unit = (PyUnitId.pyNone, 0) :=
  (C2_amended ⟨false, Wait1Outcome.timeout, Wait2Outcome.timeout,
    TermOutcome.timeout⟩ rfl).1 rfl

/-- Claim C3, counterexample: on a site whose trials saw the truthy identifier
twice, the first component of average_unit computed by calculate_results is
the Python 2 filter result — the list of (identifier, elapsed) pairs with a
truthy identifier, duplicates included — and its identifiers are not the
deduplicated set of distinct truthy identifiers that the claim describes. -/
theorem C3_counterexample :
    (Crawler.calculate_results exUnitSite).averageUnit.1
      = Option.some [(PyUnitId.str ("a"), 1), (PyUnitId.str ("a"), 2)]
    ∧ specDistinctTruthyIds exUnitSite.unit = [PyUnitId.str ("a")]
    ∧ ¬ List.Nodup ([(PyUnitId.str ("a"), (1 : ℚ)),
        (PyUnitId.str ("a"), 2)].map Prod.fst) := by
  refine ⟨?_, ?_, ?_⟩
  · rfl
  · rfl
  · decide

/-- Claim C3 as amended: for a site with a nonempty unit vector, the aggregate
mean of the unit metric is the pair of (a) the sublist of (identifier,
elapsed) pairs whose identifier is truthy, kept in order and with duplicates,
or None when no identifier is truthy, and (b) the arithmetic mean of all unit
elapsed times including zeros; the aggregate max of the unit metric is a pair
of the vector whose elapsed component is maximal (the first such pair). -/
theorem C3_amended (m : SiteMeasures) (h : m.unit ≠ []) :
    ((Crawler.calculate_results m).averageUnit.1
        = (if (m.unit.filter fun x => truthyId x.1).isEmpty then Option.none
           else Option.some (m.unit.filter fun x => truthyId x.1)))
    ∧ (Crawler.calculate_results m).averageUnit.2 = mean (m.unit.map Prod.snd)
    ∧ (Crawler.calculate_results m).maxUnit ∈ m.unit
    ∧ (∀ x ∈ m.unit, x.2 ≤ (Crawler.calculate_results m).maxUnit.2) := by
  refine ⟨rfl, rfl, ?_, ?_⟩
  · exact maxUnitPair_mem m.unit h
  · intro x hx
    exact maxUnitPair_ge m.unit x hx

/-- Witness for C3_amended at the concrete site exUnitSite. -/
theorem C3_amended_witness :
    ((Crawler.calculate_results exUnitSite).averageUnit.1
        = (if (exUnitSite.unit.filter fun x => truthyId x.1).isEmpty then Option.none
           else Option.some (exUnitSite.unit.filter fun x => truthyId x.1)))
    ∧ (Crawler.calculate_results exUnitSite).averageUnit.2
        = mean (exUnitSite.unit.map Prod.snd)
    ∧ (Crawler.calculate_results exUnitSite).maxUnit ∈ exUnitSite.unit
    ∧ (∀ x ∈ exUnitSite.unit,
        x.2 ≤ (Crawler.calculate_results exUnitSite).maxUnit.2) :=
  C3_amended exUnitSite (by decide)

/-- Claim C4, counterexample: when the terminal pixel is found and its ai
query parameter equals 983, the recorded identifier is the literal
"Failed on caps" of line 261, not the string "capped" stated by the claim. -/
theorem C4_counterexample :
    (runTagRep ⟨false, Wait1Outcome.ok 1, Wait2Outcome.ok 2 3 4,
        TermOutcome.found 5 [(aiKey, [capsCodeStr]), (uidKey, [("u1")])]⟩).unit.1
      = PyUnitId.str capsIdStr
    ∧ (runTagRep ⟨false, Wait1Outcome.ok 1, Wait2Outcome.ok 2 3 4,
        TermOutcome.found 5 [(aiKey, [capsCodeStr]), (uidKey, [("u1")])]⟩).unit.1
      ≠ PyUnitId.str ("capped") := by
  constructor
  · rfl
  · decide

/-- Claim C4 as amended: in any tag-bearing repetition where the terminal
pixel is found and the first value of its ai query parameter equals 983, the
recorded unit identifier is the string "Failed on caps". -/
theorem C4_amended (env : TagRepEnv) (e : ℚ) (q : List (String × List String))
    (rest : List String) (hp : env.preFail = false)
    (ht : env.term = TermOutcome.found e q)
    (ha : q.lookup aiKey = Option.some (capsCodeStr :: rest)) :
    (runTagRep env).unit.1 = PyUnitId.str capsIdStr := by
  simp [runTagRep, hp, ht, terminalStep, ha]

/-- Witness for C4_amended at a concrete repetition. -/
theorem C4_amended_witness :
    (runTagRep ⟨false, Wait1Outcome.ok 1, Wait2Outcome.ok 2 3 4,
        TermOutcome.found 5 [(aiKey, [capsCodeStr]), (uidKey, [("u1")])]⟩).unit.1
      = PyUnitId.str capsIdStr :=
  C4_amended ⟨false, Wait1Outcome.ok 1, Wait2Outcome.ok 2 3 4,
      TermOutcome.found 5 [(aiKey, [capsCodeStr]), (uidKey, [("u1")])]⟩
    5 [(aiKey, [capsCodeStr]), (uidKey, [("u1")])] [] rfl rfl rfl

/-- Claim C5, confirmed: when both trial loops run n repetitions, every
per-metric vector — preload, 990, with_tag, layer, unit from the tag-bearing
loop and without_tag from the no-tag loop — has exactly n entries, one per
repetition; a repetition that fails with an uncaught exception still
contributes the sentinel entries (100 for the durations, the pair (None, 0)
for unit), never a missing entry. -/
theorem C5_confirmed (n : ℕ) (envs : List TagRepEnv) (noTagEnvs : List NoTagRepEnv)
    (h1 : envs.length = n) (h2 : noTagEnvs.length = n) :
    (runTagTrial envs).preload.length = n
    ∧ (runTagTrial envs).e990.length = n
    ∧ (runTagTrial envs).withTag.length = n
    ∧ (runTagTrial envs).layer.length = n
    ∧ (runTagTrial envs).unit.length = n
    ∧ (runNoTagTrial noTagEnvs).length = n
    ∧ (∀ env : TagRepEnv, env.preFail = true → runTagRep env = sentinelRep) := by
  obtain ⟨g1, g2, g3, g4, g5⟩ := runTagTrial_go_lengths envs ⟨[], [], [], [], []⟩
  refine ⟨?_, ?_, ?_, ?_, ?_, ?_, ?_⟩
  · simpa [runTagTrial, h1] using g1
  · simpa [runTagTrial, h1] using g2
  · simpa [runTagTrial, h1] using g3
  · simpa [runTagTrial, h1] using g4
  · simpa [runTagTrial, h1] using g5
  · simpa [runNoTagTrial, h2] using foldl_snoc_length noTagEntry noTagEnvs []
  · intro env h
    simp [runTagRep, h]

/-- Witness for C5_confirmed with one failing tag repetition and one no-tag
repetition. -/
theorem C5_confirmed_witness :
    (runTagTrial [⟨true, Wait1Outcome.timeout, Wait2Outcome.timeout,
        TermOutcome.timeout⟩]).preload.length = 1
    ∧ (runTagTrial [⟨true, Wait1Outcome.timeout, Wait2Outcome.timeout,
        TermOutcome.timeout⟩]).e990.length = 1
    ∧ (runTagTrial [⟨true, Wait1Outcome.timeout, Wait2Outcome.timeout,
        TermOutcome.timeout⟩]).withTag.length = 1
    ∧ (runTagTrial [⟨true, Wait1Outcome.timeout, Wait2Outcome.timeout,
        TermOutcome.timeout⟩]).layer.length = 1
    ∧ (runTagTrial [⟨true, Wait1Outcome.timeout, Wait2Outcome.timeout,
        TermOutcome.timeout⟩]).unit.length = 1
    ∧ (runNoTagTrial [⟨false, 2⟩]).length = 1
    ∧ (∀ env : TagRepEnv, env.preFail = true → runTagRep env = sentinelRep) :=
  C5_confirmed 1 [⟨true, Wait1Outcome.timeout, Wait2Outcome.timeout,
    TermOutcome.timeout⟩] [⟨false, 2⟩] rfl rfl

/-- Claim C6, confirmed: whenever the position classification completes
without an uncaught exception, its value is exactly one of True,
(False, "Tag is located in <head>"), or (False, "Tag is located in one of
<body></body> children."). -/
theorem C6_confirmed (d : PageDoc) (r : PosValue)
    (h : classifyPosition d = Except.ok r) :
    r = PosValue.ok ∨ r = PosValue.wrong headMsg ∨ r = PosValue.wrong bodyMsg := by
  rcases d with ⟨hh, hpre, hb, bf⟩
  cases hh with
  | false => simp [classifyPosition] at h
  | true =>
    cases hpre with
    | true =>
      simp [classifyPosition] at h
      subst h
      simp
    | false =>
      cases hb with
      | false => simp [classifyPosition] at h
      | true =>
        cases bf with
        | none =>
          simp [classifyPosition] at h
          subst h
          simp
        | some hit =>
          cases hit with
          | nested =>
            simp [classifyPosition] at h
            subst h
            simp
          | direct i total =>
            by_cases h0 : total = 0
            · simp [classifyPosition, h0] at h
            · by_cases hr : (i : ℚ) / (total : ℚ) < 7 / 10
              · simp [classifyPosition, h0, hr] at h
                subst h
                simp
              · simp [classifyPosition, h0, hr] at h
                subst h
                simp

/-- Witness for C6_confirmed on a page with a preload reference in head. -/
theorem C6_confirmed_witness :
    PosValue.wrong headMsg = PosValue.ok
    ∨ PosValue.wrong headMsg = PosValue.wrong headMsg
    ∨ PosValue.wrong headMsg = PosValue.wrong bodyMsg :=
  C6_confirmed ⟨true, true, true, Option.none⟩ (PosValue.wrong headMsg) rfl

/-- Claim C7, confirmed: for every site whose vectors are nonempty, each
aggregated mean computed by calculate_results is at most the aggregated
maximum of the same vector: with_tag, without_tag, preload, layer and 990
numerically, and for unit the mean elapsed time is at most the elapsed time of
the max pair. -/
theorem C7_confirmed (m : SiteMeasures)
    (h1 : m.withTag ≠ []) (h2 : m.withoutTag ≠ []) (h3 : m.preload ≠ [])
    (h4 : m.layer ≠ []) (h5 : m.e990 ≠ []) (h6 : m.unit ≠ []) :
    (Crawler.calculate_results m).averageWithTag
        ≤ (Crawler.calculate_results m).maxWithTag
    ∧ (Crawler.calculate_results m).averageWithoutTag
        ≤ (Crawler.calculate_results m).maxWithoutTag
    ∧ (Crawler.calculate_results m).averagePreload
        ≤ (Crawler.calculate_results m).maxPreload
    ∧ (Crawler.calculate_results m).averageLayer
        ≤ (Crawler.calculate_results m).maxLayer
    ∧ (Crawler.calculate_results m).average990
        ≤ (Crawler.calculate_results m).max990
    ∧ (Crawler.calculate_results m).averageUnit.2
        ≤ (Crawler.calculate_results m).maxUnit.2 := by
  refine ⟨mean_le_listMax _ h1, mean_le_listMax _ h2, mean_le_listMax _ h3,
    mean_le_listMax _ h4, mean_le_listMax _ h5, ?_⟩
  apply mean_le_of_forall_le
  · simpa using h6
  · intro x hx
    rcases List.mem_map.mp hx with ⟨p, hp, rfl⟩
    exact maxUnitPair_ge m.unit p hp

/-- Witness for C7_confirmed at the concrete site exUnitSite. -/
theorem C7_confirmed_witness :
    (Crawler.calculate_results exUnitSite).averageWithTag
        ≤ (Crawler.calculate_results exUnitSite).maxWithTag
    ∧ (Crawler.calculate_results exUnitSite).averageWithoutTag
        ≤ (Crawler.calculate_results exUnitSite).maxWithoutTag
    ∧ (Crawler.calculate_results exUnitSite).averagePreload
        ≤ (Crawler.calculate_results exUnitSite).maxPreload
    ∧ (Crawler.calculate_results exUnitSite).averageLayer
        ≤ (Crawler.calculate_results exUnitSite).maxLayer
    ∧ (Crawler.calculate_results exUnitSite).average990
        ≤ (Crawler.calculate_results exUnitSite).max990
    ∧ (Crawler.calculate_results exUnitSite).averageUnit.2
        ≤ (Crawler.calculate_results exUnitSite).maxUnit.2 :=
  C7_confirmed exUnitSite (by decide) (by decide) (by decide) (by decide)
    (by decide) (by decide)

/-- Claim C8, counterexample: a site whose database row stores scans_number 0
executes 0 repetitions, while the stored value minus 5 is -5; the executed
count therefore does not equal stored minus 5 for every stored value. -/
theorem C8_counterexample :
    Crawler.executedReps 0 = 0
    ∧ Crawler.configScansNumber 0 = -5
    ∧ (Crawler.executedReps 0 : ℤ) ≠ Crawler.configScansNumber 0 := by
  refine ⟨rfl, rfl, ?_⟩
  decide

/-- Claim C8 as amended: the number of repetitions actually executed per trial
type is the stored scans_number minus 5 whenever the stored value is at least
5, and 0 (xrange of a non-positive count is empty) whenever the stored value
is below 5 — never the stored value itself. -/
theorem C8_amended (stored : ℤ) :
    (5 ≤ stored → (Crawler.executedReps stored : ℤ) = stored - 5)
    ∧ (stored < 5 → Crawler.executedReps stored = 0) := by
  constructor
  · intro h
    simp only [Crawler.executedReps, Crawler.configScansNumber, xrangeLen]
    omega
  · intro h
    simp only [Crawler.executedReps, Crawler.configScansNumber, xrangeLen]
    omega

/-- Witness for C8_amended at stored value 7. -/
theorem C8_amended_witness : (Crawler.executedReps 7 : ℤ) = 7 - 5 :=
  (C8_amended 7).1 (by decide)

/-- Claim C10, counterexample: the catching decorator only matches exceptions
deriving from Exception; a SystemExit — raised for instance by the exit call
inside Crawler.initialize — propagates through the wrapped operation to its
caller, so a wrapped operation does not suppress every exception for every
input. -/
theorem C10_counterexample :
    catching (α := List TagRepEnv) (Except.error ⟨false, ("SystemExit")⟩)
      = Except.error ⟨false, ("SystemExit")⟩
    ∧ Crawler.test_load_time_with_tag (Except.error ⟨false, ("SystemExit")⟩)
      = Except.error ⟨false, ("SystemExit")⟩ := by
  constructor
  · rfl
  · rfl

/-- Claim C10 as amended: every wrapped Crawler operation suppresses any
exception deriving from Exception and returns None in its place — so a
whole-trial failure yields a None site result rather than sentinel-filled
vectors — while an exception outside the Exception hierarchy (SystemExit,
KeyboardInterrupt) propagates; a body that completes returns its value. -/
theorem C10_amended (e : PyExc) (envs : List TagRepEnv)
    (he : e.isException = true) :
    catching (α := List TagRepEnv) (Except.error e) = Except.ok Option.none
    ∧ Crawler.test_load_time_with_tag (Except.error e) = Except.ok Option.none
    ∧ Crawler.test_load_time_with_tag (Except.ok envs)
        = Except.ok (Option.some (runTagTrial envs)) := by
  refine ⟨?_, ?_, rfl⟩
  · simp [catching, he]
  · simp [Crawler.test_load_time_with_tag, catching, Except.map, he]

/-- Witness for C10_amended with a concrete Exception-derived error. -/
theorem C10_amended_witness :
    catching (α := List TagRepEnv) (Except.error ⟨true, ("WebDriverException")⟩)
      = Except.ok Option.none
    ∧ Crawler.test_load_time_with_tag (Except.error ⟨true, ("WebDriverException")⟩)
      = Except.ok Option.none
    ∧ Crawler.test_load_time_with_tag (Except.ok [])
        = Except.ok (Option.some (runTagTrial [])) :=
  C10_amended ⟨true, ("WebDriverException")⟩ [] rfl
